import Mathlib

set_option linter.unusedVariables false

/-!
Formal model of `src/app.py`: a FastAPI prediction gateway in front of a
SageMaker inference endpoint.  The remote call's behaviour is made explicit
as a function from attempt index to `Outcome` (what `runtime.invoke_endpoint`
does on that attempt), and each handler returns a trace recording the
`time.sleep` pauses performed and the number of network calls made, so that
timing- and side-effect statements in the specification become statements
about the trace.  Floating-point values (elapsed times, feature values,
predictions) are modelled as rationals.
-/

/-- Outcome of one `runtime.invoke_endpoint` call inside
`call_endpoint_with_retry` (src/app.py line 46): a successful response with
its elapsed wall-clock time and raw body, a botocore `ClientError` carrying
its classification code `e.response['Error']['Code']`, or any other
exception with its message. -/
inductive Outcome where
  | success (elapsed : ℚ) (body : String)
  | clientError (code : String)
  | unclassified (msg : String)
deriving DecidableEq

/-- Result of `call_endpoint_with_retry`: either the returned response body,
or a raised `HTTPException` with its status code and detail string. -/
inductive CallResult where
  | ok (body : String)
  | httpError (status : ℕ) (detail : String)
deriving DecidableEq

/-- Trace of one `call_endpoint_with_retry` invocation: its result, the
`time.sleep` durations performed in order, and how many network calls
(`invoke_endpoint`) were made. -/
structure RetryTrace where
  result : CallResult
  sleeps : List ℕ
  calls : ℕ
deriving DecidableEq

/-- The `for attempt in range(max_retries)` loop of
`call_endpoint_with_retry` (src/app.py lines 43-76), entered at loop
counter `attempt` with `fuel = max_retries - attempt` iterations left.
Per iteration (one network call, `calls + 1`):
success slower than 5.0 with a later attempt remaining sleeps 1 and
retries, any other success is returned (line 53-57); a `ClientError`
whose code is `ModelError` with a later attempt remaining sleeps
`2 ^ attempt` and retries, any other `ClientError` raises
503 `Endpoint error: <code>` (lines 59-67); any other exception on the
last attempt raises 500 `Unexpected error: <msg>`, otherwise sleeps
`2 ^ attempt` and retries (lines 68-74).  If the loop exits, line 76
raises 503 `Endpoint unavailable after retries`. -/
def retryFrom (outcomes : ℕ → Outcome) (max_retries : ℕ) :
    ℕ → ℕ → List ℕ → ℕ → RetryTrace
  | 0, _, sleeps, calls =>
      ⟨.httpError 503 "Endpoint unavailable after retries", sleeps, calls⟩
  | fuel + 1, attempt, sleeps, calls =>
      match outcomes attempt with
      | .success elapsed body =>
          if elapsed > 5 ∧ attempt < max_retries - 1 then
            retryFrom outcomes max_retries fuel (attempt + 1) (sleeps ++ [1]) (calls + 1)
          else
            ⟨.ok body, sleeps, calls + 1⟩
      | .clientError code =>
          if code = "ModelError" ∧ attempt < max_retries - 1 then
            retryFrom outcomes max_retries fuel (attempt + 1)
              (sleeps ++ [2 ^ attempt]) (calls + 1)
          else
            ⟨.httpError 503 ("Endpoint error: " ++ code), sleeps, calls + 1⟩
      | .unclassified msg =>
          if attempt = max_retries - 1 then
            ⟨.httpError 500 ("Unexpected error: " ++ msg), sleeps, calls + 1⟩
          else
            retryFrom outcomes max_retries fuel (attempt + 1)
              (sleeps ++ [2 ^ attempt]) (calls + 1)

/-- Model of `call_endpoint_with_retry(features, max_retries)`
(src/app.py lines 39-76): run the loop from attempt 0 with an empty trace.
The serialized `csv_data` payload does not influence control flow, so the
features list is elided; `outcomes` gives the remote call's behaviour on
each attempt index. -/
def call_endpoint_with_retry (outcomes : ℕ → Outcome) (max_retries : ℕ) :
    RetryTrace :=
  retryFrom outcomes max_retries max_retries 0 [] 0

/-- Result of the `/predict` handler: a 200 response carrying the
prediction and confidence label, or a raised `HTTPException`. -/
inductive PredictResult where
  | ok (prediction : ℚ) (confidence : String)
  | httpError (status : ℕ) (detail : String)
deriving DecidableEq

/-- Trace of one `/predict` call: its result plus the sleeps and network
call count of the underlying retry loop. -/
structure PredictTrace where
  result : PredictResult
  sleeps : List ℕ
  calls : ℕ
deriving DecidableEq

/-- Confidence bucketing of src/app.py line 96:
`"high" if p > 0.7 else "medium" if p > 0.3 else "low"`. -/
def confidence (prediction_value : ℚ) : String :=
  if prediction_value > 7/10 then "high"
  else if prediction_value > 3/10 then "medium"
  else "low"

/-- Model of the `/predict` handler (src/app.py lines 78-101).  A feature
list of length other than 17 raises 400 before any network call.
Otherwise `call_endpoint_with_retry` runs with the default
`max_retries = 3`; on a returned response the raw body is parsed as a
single float and the confidence label derived.  `parseFloat` models the
Python builtin `float` applied to the stripped body text, `none` standing
for a `ValueError`; src/app.py does not catch that error, so it is
modelled from the spec ("failure to parse is a defect to surface as an
internal error"), as the framework's 500 Internal Server Error for an
unhandled exception. -/
def predict (features : List ℚ) (outcomes : ℕ → Outcome)
    (parseFloat : String → Option ℚ) : PredictTrace :=
  if features.length ≠ 17 then
    ⟨.httpError 400 ("Expected 17 features, got " ++ toString features.length),
      [], 0⟩
  else
    let r := call_endpoint_with_retry outcomes 3
    match r.result with
    | .ok body =>
        match parseFloat body with
        | some prediction_value =>
            ⟨.ok prediction_value (confidence prediction_value), r.sleeps, r.calls⟩
        | none => ⟨.httpError 500 "Internal Server Error", r.sleeps, r.calls⟩
    | .httpError status detail => ⟨.httpError status detail, r.sleeps, r.calls⟩

/-- Result of the `/ready` handler: a 200 response naming the endpoint, or
a 503 with `status: not ready`. -/
inductive ReadyResult where
  | ready (endpoint : String)
  | notReady (status : ℕ)
deriving DecidableEq

/-- Model of the `/ready` handler (src/app.py lines 29-37): returns ready
with the endpoint name iff `runtime is not None and ENDPOINT_NAME` holds,
that is, iff the client handle is initialized and the endpoint name is a
non-empty (truthy) string; otherwise it raises 503 (the `HTTPException`
raised on line 35 is itself caught on line 36 and re-raised as another
503, so the status is 503 either way).  No network call occurs. -/
def ready (runtimeInitialized : Bool) (endpoint_name : String) : ReadyResult :=
  if runtimeInitialized ∧ endpoint_name ≠ "" then .ready endpoint_name
  else .notReady 503

/-- Unfolding lemma: with fuel left, an iteration whose remote call succeeds
follows src/app.py lines 45-57. -/
theorem retryFrom_step_success {outcomes : ℕ → Outcome} {max_retries fuel attempt : ℕ}
    {elapsed : ℚ} {body : String} {sleeps : List ℕ} {calls : ℕ}
    (hfuel : fuel ≠ 0) (h : outcomes attempt = .success elapsed body) :
    retryFrom outcomes max_retries fuel attempt sleeps calls =
      if elapsed > 5 ∧ attempt < max_retries - 1 then
        retryFrom outcomes max_retries (fuel - 1) (attempt + 1)
          (sleeps ++ [1]) (calls + 1)
      else ⟨.ok body, sleeps, calls + 1⟩ := by
  obtain ⟨f, rfl⟩ := Nat.exists_eq_succ_of_ne_zero hfuel
  simp only [retryFrom, h, Nat.succ_sub_one]

/-- Unfolding lemma: with fuel left, an iteration whose remote call raises a
`ClientError` follows src/app.py lines 59-67. -/
theorem retryFrom_step_clientError {outcomes : ℕ → Outcome} {max_retries fuel attempt : ℕ}
    {code : String} {sleeps : List ℕ} {calls : ℕ}
    (hfuel : fuel ≠ 0) (h : outcomes attempt = .clientError code) :
    retryFrom outcomes max_retries fuel attempt sleeps calls =
      if code = "ModelError" ∧ attempt < max_retries - 1 then
        retryFrom outcomes max_retries (fuel - 1) (attempt + 1)
          (sleeps ++ [2 ^ attempt]) (calls + 1)
      else ⟨.httpError 503 ("Endpoint error: " ++ code), sleeps, calls + 1⟩ := by
  obtain ⟨f, rfl⟩ := Nat.exists_eq_succ_of_ne_zero hfuel
  simp only [retryFrom, h, Nat.succ_sub_one]

/-- Unfolding lemma: with fuel left, an iteration whose remote call raises an
unclassified exception follows src/app.py lines 68-74. -/
theorem retryFrom_step_unclassified {outcomes : ℕ → Outcome} {max_retries fuel attempt : ℕ}
    {msg : String} {sleeps : List ℕ} {calls : ℕ}
    (hfuel : fuel ≠ 0) (h : outcomes attempt = .unclassified msg) :
    retryFrom outcomes max_retries fuel attempt sleeps calls =
      if attempt = max_retries - 1 then
        ⟨.httpError 500 ("Unexpected error: " ++ msg), sleeps, calls + 1⟩
      else
        retryFrom outcomes max_retries (fuel - 1) (attempt + 1)
          (sleeps ++ [2 ^ attempt]) (calls + 1) := by
  obtain ⟨f, rfl⟩ := Nat.exists_eq_succ_of_ne_zero hfuel
  simp only [retryFrom, h, Nat.succ_sub_one]

/-- The detail string of a non-retryable `ClientError` never coincides with
the post-loop exhaustion message of src/app.py line 76. -/
theorem endpoint_error_detail_ne (code : String) :
    "Endpoint error: " ++ code ≠ "Endpoint unavailable after retries" := by
  intro h
  obtain ⟨cs⟩ := code
  have hd : "Endpoint error: ".data ++ cs =
      "Endpoint unavailable after retries".data := congrArg String.data h
  simp at hd

/-- When every remote attempt raises a `ClientError` with code `ModelError`,
the loop (entered with the invariant `attempt + fuel = max_retries` of the
Python `for` loop and at least one iteration left) ends in the 503 raised
on the final attempt at src/app.py line 64, with detail
`Endpoint error: ModelError`. -/
theorem retryFrom_modelError_result {outcomes : ℕ → Outcome} {max_retries : ℕ}
    (hall : ∀ i, outcomes i = .clientError "ModelError") :
    ∀ fuel attempt sleeps calls, attempt + fuel = max_retries → fuel ≠ 0 →
      (retryFrom outcomes max_retries fuel attempt sleeps calls).result =
        .httpError 503 ("Endpoint error: " ++ "ModelError") := by
  intro fuel
  induction fuel with
  | zero => intro attempt sleeps calls hinv hfuel; exact absurd rfl hfuel
  | succ f ih =>
    intro attempt sleeps calls hinv hfuel
    rw [retryFrom_step_clientError hfuel (hall attempt)]
    by_cases hfin : attempt < max_retries - 1
    · rw [if_pos ⟨rfl, hfin⟩]
      exact ih (attempt + 1) _ _ (by omega) (by omega)
    · rw [if_neg fun hc => hfin hc.2]

/-- Invariant-carrying shape lemma for the loop of src/app.py lines 43-76:
with at least one iteration left, the loop terminates inside an iteration,
producing the returned response, a 503 `Endpoint error: <code>`, or a
500 `Unexpected error: <msg>` — never the post-loop 503 of line 76. -/
theorem retryFrom_resolves {outcomes : ℕ → Outcome} {max_retries : ℕ} :
    ∀ fuel attempt sleeps calls, attempt + fuel = max_retries → fuel ≠ 0 →
      (∃ body, (retryFrom outcomes max_retries fuel attempt sleeps calls).result =
          .ok body) ∨
      (∃ code, (retryFrom outcomes max_retries fuel attempt sleeps calls).result =
          .httpError 503 ("Endpoint error: " ++ code)) ∨
      (∃ msg, (retryFrom outcomes max_retries fuel attempt sleeps calls).result =
          .httpError 500 ("Unexpected error: " ++ msg)) := by
  intro fuel
  induction fuel with
  | zero => intro attempt sleeps calls hinv hfuel; exact absurd rfl hfuel
  | succ f ih =>
    intro attempt sleeps calls hinv hfuel
    cases hout : outcomes attempt with
    | success elapsed body =>
      rw [retryFrom_step_success hfuel hout]
      by_cases hc : elapsed > 5 ∧ attempt < max_retries - 1
      · rw [if_pos hc]
        exact ih (attempt + 1) _ _ (by omega) (by omega)
      · rw [if_neg hc]
        exact Or.inl ⟨body, rfl⟩
    | clientError code =>
      rw [retryFrom_step_clientError hfuel hout]
      by_cases hc : code = "ModelError" ∧ attempt < max_retries - 1
      · rw [if_pos hc]
        exact ih (attempt + 1) _ _ (by omega) (by omega)
      · rw [if_neg hc]
        exact Or.inr (Or.inl ⟨code, rfl⟩)
    | unclassified msg =>
      rw [retryFrom_step_unclassified hfuel hout]
      by_cases hc : attempt = max_retries - 1
      · rw [if_pos hc]
        exact Or.inr (Or.inr ⟨msg, rfl⟩)
      · rw [if_neg hc]
        exact ih (attempt + 1) _ _ (by omega) (by omega)

/-- C1: in `call_endpoint_with_retry`, an attempt whose remote call succeeds
but takes more than 5.0 time-units discards the successful result, sleeps 1
time-unit and retries when a later attempt remains
(`attempt < max_retries - 1`); on the final attempt the slow successful
result is returned instead. -/
theorem slow_success_policy (outcomes : ℕ → Outcome) (max_retries attempt : ℕ)
    (sleeps : List ℕ) (calls : ℕ) (elapsed : ℚ) (body : String)
    (hout : outcomes attempt = .success elapsed body) (hslow : elapsed > 5)
    (hlt : attempt < max_retries) :
    (attempt < max_retries - 1 →
      retryFrom outcomes max_retries (max_retries - attempt) attempt sleeps calls =
        retryFrom outcomes max_retries (max_retries - (attempt + 1)) (attempt + 1)
          (sleeps ++ [1]) (calls + 1)) ∧
    (attempt = max_retries - 1 →
      retryFrom outcomes max_retries (max_retries - attempt) attempt sleeps calls =
        ⟨.ok body, sleeps, calls + 1⟩) := by
  constructor
  · intro hfin
    rw [retryFrom_step_success (by omega) hout, if_pos ⟨hslow, hfin⟩]
    congr 1
  · intro hfin
    rw [retryFrom_step_success (by omega) hout,
      if_neg fun hc => absurd hc.2 (by omega)]

/-- Witness for C1: a 6-time-unit success on attempt 0 of 3 is discarded
with a 1-unit sleep, and the same outcome on the final attempt index 2
is returned. -/
theorem slow_success_policy_witness :
    (0 < 3 - 1 ∧
      retryFrom (fun _ => Outcome.success 6 "slow") 3 (3 - 0) 0 [] 0 =
        retryFrom (fun _ => Outcome.success 6 "slow") 3 (3 - (0 + 1)) (0 + 1)
          ([] ++ [1]) (0 + 1)) ∧
    (2 = 3 - 1 ∧
      retryFrom (fun _ => Outcome.success 6 "slow") 3 (3 - 2) 2 [1, 1] 2 =
        ⟨.ok "slow", [1, 1], 2 + 1⟩) :=
  ⟨⟨by norm_num,
    (slow_success_policy (fun _ => Outcome.success 6 "slow") 3 0 [] 0 6 "slow"
      rfl (by norm_num) (by norm_num)).1 (by norm_num)⟩,
   ⟨by norm_num,
    (slow_success_policy (fun _ => Outcome.success 6 "slow") 3 2 [1, 1] 2 6 "slow"
      rfl (by norm_num) (by norm_num)).2 (by norm_num)⟩⟩

/-- C3: a feature list whose length differs from 17 makes `predict` raise
400 with a detail naming the expected and actual counts, with zero network
calls. -/
theorem predict_wrong_feature_count (features : List ℚ) (outcomes : ℕ → Outcome)
    (parseFloat : String → Option ℚ) (hlen : features.length ≠ 17) :
    predict features outcomes parseFloat =
      ⟨.httpError 400 ("Expected 17 features, got " ++ toString features.length),
        [], 0⟩ := by
  rw [predict, if_pos hlen]

/-- Witness for C3: a 2-element feature list yields the 400 trace with no
calls and no sleeps. -/
theorem predict_wrong_feature_count_witness :
    predict [1, 2] (fun _ => Outcome.success 1 "x") (fun _ => some 1) =
      ⟨.httpError 400 "Expected 17 features, got 2", [], 0⟩ :=
  predict_wrong_feature_count [1, 2] (fun _ => Outcome.success 1 "x")
    (fun _ => some 1) (by decide)

/-- C4: the derived confidence label is `high` for predictions above 0.7,
`medium` for predictions in (0.3, 0.7], and `low` at or below 0.3; in
particular 0.85, 0.5 and 0.1 map to `high`, `medium` and `low`. -/
theorem confidence_buckets (p : ℚ) :
    (p > 7/10 → confidence p = "high") ∧
    (3/10 < p ∧ p ≤ 7/10 → confidence p = "medium") ∧
    (p ≤ 3/10 → confidence p = "low") ∧
    confidence (85/100) = "high" ∧
    confidence (1/2) = "medium" ∧
    confidence (1/10) = "low" := by
  refine ⟨fun h => by rw [confidence, if_pos h],
    fun h => by rw [confidence, if_neg (not_lt.mpr h.2), if_pos h.1],
    fun h => by
      rw [confidence, if_neg (not_lt.mpr (h.trans (by norm_num))),
        if_neg (not_lt.mpr h)],
    by norm_num [confidence], by norm_num [confidence], by norm_num [confidence]⟩

/-- Witness for C4: the medium bucket hypothesis holds at 0.5 and the
theorem yields the label. -/
theorem confidence_buckets_witness :
    (3/10 < (1 : ℚ)/2 ∧ (1 : ℚ)/2 ≤ 7/10) ∧ confidence (1/2) = "medium" :=
  ⟨⟨by norm_num, by norm_num⟩,
    (confidence_buckets (1/2)).2.1 ⟨by norm_num, by norm_num⟩⟩

/-- C5: a `ClientError` whose code is not `ModelError` makes the loop stop
immediately: the 503 with detail `Endpoint error: <code>` is raised on the
spot, with exactly one more network call and no further sleep, on any
attempt. -/
theorem fatal_client_error (outcomes : ℕ → Outcome) (max_retries attempt : ℕ)
    (sleeps : List ℕ) (calls : ℕ) (code : String)
    (hout : outcomes attempt = .clientError code) (hcode : code ≠ "ModelError")
    (hlt : attempt < max_retries) :
    retryFrom outcomes max_retries (max_retries - attempt) attempt sleeps calls =
      ⟨.httpError 503 ("Endpoint error: " ++ code), sleeps, calls + 1⟩ := by
  rw [retryFrom_step_clientError (by omega) hout,
    if_neg fun hc => hcode hc.1]

/-- Witness for C5: a `ValidationError` on the first of three attempts is
surfaced at once as 503 with one call made. -/
theorem fatal_client_error_witness :
    (fun _ : ℕ => Outcome.clientError "ValidationError") 0 =
        Outcome.clientError "ValidationError" ∧
    "ValidationError" ≠ "ModelError" ∧
    retryFrom (fun _ => Outcome.clientError "ValidationError") 3 (3 - 0) 0 [] 0 =
      ⟨.httpError 503 ("Endpoint error: " ++ "ValidationError"), [], 0 + 1⟩ :=
  ⟨rfl, by decide,
    fatal_client_error (fun _ => Outcome.clientError "ValidationError") 3 0 [] 0
      "ValidationError" rfl (by decide) (by norm_num)⟩

/-- C6: an unclassified exception on a non-final attempt sleeps
`2 ^ attempt` time-units and retries; on the final attempt it raises 500
with the original error text. -/
theorem unclassified_error_policy (outcomes : ℕ → Outcome)
    (max_retries attempt : ℕ) (sleeps : List ℕ) (calls : ℕ) (msg : String)
    (hout : outcomes attempt = .unclassified msg) (hlt : attempt < max_retries) :
    (attempt < max_retries - 1 →
      retryFrom outcomes max_retries (max_retries - attempt) attempt sleeps calls =
        retryFrom outcomes max_retries (max_retries - (attempt + 1)) (attempt + 1)
          (sleeps ++ [2 ^ attempt]) (calls + 1)) ∧
    (attempt = max_retries - 1 →
      retryFrom outcomes max_retries (max_retries - attempt) attempt sleeps calls =
        ⟨.httpError 500 ("Unexpected error: " ++ msg), sleeps, calls + 1⟩) := by
  constructor
  · intro hfin
    rw [retryFrom_step_unclassified (by omega) hout, if_neg (by omega)]
    congr 1
  · intro hfin
    rw [retryFrom_step_unclassified (by omega) hout, if_pos hfin]

/-- Witness for C6: an unclassified `boom` on attempt 0 of 3 sleeps
`2 ^ 0` and retries; the same outcome on the final attempt index 2 raises
500 with the message. -/
theorem unclassified_error_policy_witness :
    (0 < 3 - 1 ∧
      retryFrom (fun _ => Outcome.unclassified "boom") 3 (3 - 0) 0 [] 0 =
        retryFrom (fun _ => Outcome.unclassified "boom") 3 (3 - (0 + 1)) (0 + 1)
          ([] ++ [2 ^ 0]) (0 + 1)) ∧
    (2 = 3 - 1 ∧
      retryFrom (fun _ => Outcome.unclassified "boom") 3 (3 - 2) 2 [1, 2] 2 =
        ⟨.httpError 500 ("Unexpected error: " ++ "boom"), [1, 2], 2 + 1⟩) :=
  ⟨⟨by norm_num,
    (unclassified_error_policy (fun _ => Outcome.unclassified "boom") 3 0 [] 0
      "boom" rfl (by norm_num)).1 (by norm_num)⟩,
   ⟨by norm_num,
    (unclassified_error_policy (fun _ => Outcome.unclassified "boom") 3 2 [1, 2] 2
      "boom" rfl (by norm_num)).2 (by norm_num)⟩⟩

/-- C2: with `max_retries = 3`, a retryable `ModelError` on the first two
attempts followed by a within-budget success on the third makes `predict`
return the attempt-3 prediction, after exponential backoff sleeps of
`2 ^ 0 = 1` and `2 ^ 1 = 2` time-units before attempts 2 and 3. -/
theorem retry_then_success (features : List ℚ) (outcomes : ℕ → Outcome)
    (parseFloat : String → Option ℚ) (elapsed : ℚ) (body : String) (p : ℚ)
    (hlen : features.length = 17)
    (h0 : outcomes 0 = .clientError "ModelError")
    (h1 : outcomes 1 = .clientError "ModelError")
    (h2 : outcomes 2 = .success elapsed body)
    (hfast : elapsed ≤ 5)
    (hparse : parseFloat body = some p) :
    predict features outcomes parseFloat =
      ⟨.ok p (confidence p), [1, 2], 3⟩ := by
  have hr : call_endpoint_with_retry outcomes 3 = ⟨.ok body, [1, 2], 3⟩ := by
    rw [call_endpoint_with_retry]
    rw [retryFrom_step_clientError (by norm_num) h0, if_pos ⟨rfl, by norm_num⟩]
    norm_num
    rw [retryFrom_step_clientError (by norm_num) h1, if_pos ⟨rfl, by norm_num⟩]
    norm_num
    rw [retryFrom_step_success (by norm_num) h2,
      if_neg fun hc => absurd hc.2 (by norm_num)]
  rw [predict, if_neg (by simp [hlen]), hr]
  simp [hparse]

/-- Witness for C2: two `ModelError` attempts then a fast success with body
`0.85` yield the parsed prediction with sleeps 1 and 2. -/
theorem retry_then_success_witness :
    predict (List.replicate 17 0)
        (fun i => if i < 2 then Outcome.clientError "ModelError"
          else Outcome.success 1 "0.85")
        (fun _ => some (85/100)) =
      ⟨.ok (85/100) (confidence (85/100)), [1, 2], 3⟩ :=
  retry_then_success (List.replicate 17 0)
    (fun i => if i < 2 then Outcome.clientError "ModelError"
      else Outcome.success 1 "0.85")
    (fun _ => some (85/100)) 1 "0.85" (85/100)
    (by simp) rfl rfl rfl (by norm_num) rfl

/-- C7 counterexample: with `max_retries = 3` and every attempt raising the
retryable `ModelError`, all attempts are exhausted without success, yet the
resulting 503 carries the detail `Endpoint error: ModelError` of
src/app.py line 64-67, not the exhaustion message of line 76. -/
theorem exhaustion_message_counterexample :
    call_endpoint_with_retry (fun _ => Outcome.clientError "ModelError") 3 =
      ⟨.httpError 503 "Endpoint error: ModelError", [1, 2], 3⟩ ∧
    (call_endpoint_with_retry
        (fun _ => Outcome.clientError "ModelError") 3).result ≠
      .httpError 503 "Endpoint unavailable after retries" := by decide

/-- C7 amended: when every attempt up to a positive maximum raises the
retryable `ModelError`, `call_endpoint_with_retry` fails with a 503 whose
detail names the remote code (`Endpoint error: ModelError`); the exhaustion
message `Endpoint unavailable after retries` is produced only when the
loop body never runs (`max_retries = 0`). -/
theorem exhaustion_amended (outcomes : ℕ → Outcome) (max_retries : ℕ) :
    (1 ≤ max_retries → (∀ i, outcomes i = .clientError "ModelError") →
      (call_endpoint_with_retry outcomes max_retries).result =
        .httpError 503 ("Endpoint error: " ++ "ModelError")) ∧
    (call_endpoint_with_retry outcomes 0).result =
      .httpError 503 "Endpoint unavailable after retries" := by
  constructor
  · intro hmr hall
    exact retryFrom_modelError_result hall max_retries 0 [] 0 (by omega) (by omega)
  · rfl

/-- Witness for C7 amended: three all-`ModelError` attempts give the 503
with the remote code, and a zero-iteration loop gives the exhaustion 503. -/
theorem exhaustion_amended_witness :
    (call_endpoint_with_retry
        (fun _ => Outcome.clientError "ModelError") 3).result =
      .httpError 503 ("Endpoint error: " ++ "ModelError") ∧
    (call_endpoint_with_retry
        (fun _ => Outcome.clientError "ModelError") 0).result =
      .httpError 503 "Endpoint unavailable after retries" :=
  ⟨(exhaustion_amended (fun _ => Outcome.clientError "ModelError") 3).1
      (by norm_num) (fun i => rfl),
    (exhaustion_amended (fun _ => Outcome.clientError "ModelError") 3).2⟩

/-- C8 counterexample: with the client handle uninitialized and the
non-empty endpoint identity of src/app.py line 13, `ready` returns 503,
not the 200 the claim requires for every non-empty identity. -/
theorem ready_uninitialized_counterexample :
    "shoppers-xgboost-endpoint" ≠ "" ∧
    ready false "shoppers-xgboost-endpoint" = .notReady 503 ∧
    ready false "shoppers-xgboost-endpoint" ≠
      .ready "shoppers-xgboost-endpoint" := by decide

/-- C8 amended: the readiness check returns 200 with the endpoint identity
iff the client handle is initialized and the identity is non-empty; it
returns 503 otherwise, in particular whenever the identity is empty,
regardless of the handle.  It is a pure function of the local
configuration, performing no network call. -/
theorem ready_policy_amended (runtimeInitialized : Bool) (endpoint_name : String) :
    (ready runtimeInitialized endpoint_name = .ready endpoint_name ↔
      runtimeInitialized = true ∧ endpoint_name ≠ "") ∧
    (endpoint_name = "" → ready runtimeInitialized endpoint_name = .notReady 503) ∧
    (ready runtimeInitialized endpoint_name = .ready endpoint_name ∨
      ready runtimeInitialized endpoint_name = .notReady 503) := by
  rw [ready]
  by_cases hc : runtimeInitialized = true ∧ endpoint_name ≠ ""
  · rw [if_pos hc]
    exact ⟨⟨fun _ => hc, fun _ => rfl⟩, fun he => absurd he hc.2, Or.inl rfl⟩
  · rw [if_neg hc]
    exact ⟨⟨fun h => ReadyResult.noConfusion h, fun h => absurd h hc⟩,
      fun _ => rfl, Or.inr rfl⟩

/-- Witness for C8 amended: with an initialized handle and the configured
endpoint name, the readiness equivalence, the empty-name branch and the
two-valued range are all realized. -/
theorem ready_policy_amended_witness :
    (ready true "shoppers-xgboost-endpoint" =
        .ready "shoppers-xgboost-endpoint" ↔
      true = true ∧ "shoppers-xgboost-endpoint" ≠ "") ∧
    ("shoppers-xgboost-endpoint" = "" →
      ready true "shoppers-xgboost-endpoint" = .notReady 503) ∧
    (ready true "shoppers-xgboost-endpoint" =
        .ready "shoppers-xgboost-endpoint" ∨
      ready true "shoppers-xgboost-endpoint" = .notReady 503) :=
  ready_policy_amended true "shoppers-xgboost-endpoint"

/-- C9: after the retry loop returns a response body, `predict` parses the
body as a single float: a parseable body yields the parsed prediction with
its confidence label, and a non-parseable body yields an internal error
(500), never a coerced `ok` value. -/
theorem predict_parse_failure (features : List ℚ) (outcomes : ℕ → Outcome)
    (parseFloat : String → Option ℚ) (body : String)
    (hlen : features.length = 17)
    (hok : (call_endpoint_with_retry outcomes 3).result = .ok body) :
    (∀ p, parseFloat body = some p →
      (predict features outcomes parseFloat).result = .ok p (confidence p)) ∧
    (parseFloat body = none →
      (predict features outcomes parseFloat).result =
        .httpError 500 "Internal Server Error" ∧
      ∀ p c, (predict features outcomes parseFloat).result ≠ .ok p c) := by
  rw [predict, if_neg (by simp [hlen])]
  simp only [hok]
  constructor
  · intro p hp
    simp [hp]
  · intro hp
    simp [hp]

/-- Witness for C9: a fast success whose body `abc` does not parse makes
`predict` end in the internal error. -/
theorem predict_parse_failure_witness :
    (fun _ : String => (none : Option ℚ)) "abc" = none ∧
    (predict (List.replicate 17 0) (fun _ => Outcome.success 1 "abc")
        (fun _ => none)).result = .httpError 500 "Internal Server Error" :=
  ⟨rfl,
    ((predict_parse_failure (List.replicate 17 0)
        (fun _ => Outcome.success 1 "abc") (fun _ => none) "abc"
        (by simp) (by decide)).2 rfl).1⟩

/-- C10: for every positive `max_retries` and every outcome sequence, the
retry loop resolves inside its final iteration — returning a body, raising
503 `Endpoint error: <code>`, or raising 500 `Unexpected error: <msg>` —
and never produces the post-loop exhaustion 503, which is reached exactly
when `max_retries = 0`. -/
theorem loop_always_resolves (outcomes : ℕ → Outcome) (max_retries : ℕ) :
    (1 ≤ max_retries →
      ((∃ body, (call_endpoint_with_retry outcomes max_retries).result =
          .ok body) ∨
       (∃ code, (call_endpoint_with_retry outcomes max_retries).result =
          .httpError 503 ("Endpoint error: " ++ code)) ∨
       (∃ msg, (call_endpoint_with_retry outcomes max_retries).result =
          .httpError 500 ("Unexpected error: " ++ msg))) ∧
      (call_endpoint_with_retry outcomes max_retries).result ≠
        .httpError 503 "Endpoint unavailable after retries") ∧
    (call_endpoint_with_retry outcomes 0).result =
      .httpError 503 "Endpoint unavailable after retries" := by
  constructor
  · intro hmr
    have hshape := @retryFrom_resolves outcomes max_retries max_retries 0 [] 0
      (by omega) (by omega)
    rw [call_endpoint_with_retry]
    refine ⟨hshape, ?_⟩
    rcases hshape with ⟨body, hb⟩ | ⟨code, hcode⟩ | ⟨msg, hmsg⟩
    · rw [hb]
      exact fun h => CallResult.noConfusion h
    · rw [hcode]
      intro h
      injection h with h1 h2
      exact endpoint_error_detail_ne code h2
    · rw [hmsg]
      intro h
      injection h with h1 h2
      norm_num at h1
  · rfl

/-- Witness for C10: with three attempts all raising an unclassified error,
the loop resolves (as a 500) and never yields the exhaustion message. -/
theorem loop_always_resolves_witness :
    1 ≤ 3 ∧
    (call_endpoint_with_retry (fun _ => Outcome.unclassified "x") 3).result ≠
      .httpError 503 "Endpoint unavailable after retries" :=
  ⟨by norm_num,
    ((loop_always_resolves (fun _ => Outcome.unclassified "x") 3).1
      (by norm_num)).2⟩
